import Mathlib

/-!
Shallow embedding of the Tracking-App server (the full-featured variant with
click records and deferred enrichment). Pure helpers are translated as Lean
functions; the MongoDB collection of links is modelled as a `List Link` with
explicit state passing; the external ip-api.com lookup is an explicit oracle
parameter `String → GeoOutcome`; JavaScript `undefined`/`null` are modelled
with `Option`, and JS falsiness of `""` and `0` is made explicit.
-/

namespace Track

/-- True when `pat` occurs at the very front of `s` (character list form). -/
def leadMatch : List Char → List Char → Bool
  | [], _ => true
  | _ :: _, [] => false
  | c :: cs, d :: ds => c == d && leadMatch cs ds

/-- True when `pat` occurs contiguously anywhere in `s`; models JS `String.includes`. -/
def hasSub (pat : List Char) : List Char → Bool
  | [] => leadMatch pat []
  | c :: cs => leadMatch pat (c :: cs) || hasSub pat cs

/-- JS `s.includes(pat)` on strings. -/
def strHasSub (s pat : String) : Bool :=
  hasSub pat.data s.data

/-- JS `s.toLowerCase()` (ASCII, which is all the classifier compares). -/
def strLower (s : String) : String :=
  ⟨s.data.map Char.toLower⟩

/-- Replace the first occurrence of `pat` in `s` by `repl`; models JS
`s.replace(pat, repl)` with a plain-string pattern, which substitutes only
the first match and leaves `s` unchanged when there is none. -/
def replFirst (pat repl : List Char) : List Char → List Char
  | [] => []
  | c :: cs =>
      if leadMatch pat (c :: cs) then repl ++ (c :: cs).drop pat.length
      else c :: replFirst pat repl cs

/-- String form of `replFirst`. -/
def strReplFirst (s pat repl : String) : String :=
  ⟨replFirst pat.data repl.data s.data⟩

/-- JS `v || d` where `v` is a possibly-absent string (absent header or field):
`undefined`, `null` and the empty string are falsy and yield the default. -/
def jsOrDefault (v : Option String) (d : String) : String :=
  match v with
  | none => d
  | some s => if s = "" then d else s

/-- JS truthiness filter on a possibly-absent number: `undefined`, `null`
and `0` are falsy (become `none`), any other number passes through. -/
def jsNumFalsy (v : Option Int) : Option Int :=
  match v with
  | none => none
  | some n => if n = 0 then none else some n

/-- JS `a || b` on two possibly-absent numbers (used for
`req.connection.remotePort || req.socket.remotePort || null`). -/
def firstTruthyNum (a b : Option Int) : Option Int :=
  match jsNumFalsy a with
  | some v => some v
  | none => jsNumFalsy b

/-- Output of the user-agent classifier. -/
structure UAInfo where
  browser : String
  os : String
  device : String
deriving DecidableEq

/-- Embedding of `parseUserAgent` (src/unnamed/part_000 lines 57-82):
lowercase the user agent, then run the three substring if-chains for
browser, OS and device. -/
def parseUserAgent (userAgent : String) : UAInfo :=
  let ua := strLower userAgent
  let browser :=
    if strHasSub ua "chrome" && !(strHasSub ua "edg") then "Chrome"
    else if strHasSub ua "safari" && !(strHasSub ua "chrome") then "Safari"
    else if strHasSub ua "firefox" then "Firefox"
    else if strHasSub ua "edg" then "Edge"
    else if strHasSub ua "opera" || strHasSub ua "opr" then "Opera"
    else "Unknown"
  let os :=
    if strHasSub ua "windows" then "Windows"
    else if strHasSub ua "mac" then "macOS"
    else if strHasSub ua "linux" then "Linux"
    else if strHasSub ua "android" then "Android"
    else if strHasSub ua "iphone" || strHasSub ua "ipad" then "iOS"
    else "Unknown"
  let device :=
    if strHasSub ua "mobile" then "Mobile"
    else if strHasSub ua "tablet" || strHasSub ua "ipad" then "Tablet"
    else "Desktop"
  ⟨browser, os, device⟩

/-- Outcome of the external ip-api.com fetch, as seen by `getGeolocation`:
either the fetch / JSON parse threw (network error or malformed body), or a
parsed JSON object with its `status` field and the five fields the code
reads (`none` models an absent field, numbers are modelled as integers). -/
inductive GeoOutcome where
  | netError : GeoOutcome
  | ok : String → Option String → Option String → Option String →
         Option Int → Option Int → GeoOutcome
deriving DecidableEq

/-- The record `getGeolocation` returns. -/
structure GeoResult where
  country : String
  city : String
  region : String
  latitude : Option Int
  longitude : Option Int
deriving DecidableEq

/-- `const cleanIp = ip.replace('::ffff:', '')`. -/
def cleanIp (ip : String) : String :=
  strReplFirst ip "::ffff:" ""

/-- Embedding of `getGeolocation` (src/unnamed/part_000 lines 94-134).
`lookup` is the external service: it maps the cleaned IP to the outcome of
`fetch` + `response.json()`. A loopback or "Unknown" IP short-circuits
before the lookup; a thrown error or a non-"success" status falls through
to the all-Unknown/null result; on success each provider field is read
with JS `||` falsiness (`data.country || 'Unknown'`, `data.lat || null`). -/
def getGeolocation (ip : String) (lookup : String → GeoOutcome) : GeoResult :=
  let ci := cleanIp ip
  if ci = "127.0.0.1" ∨ ci = "::1" ∨ ci = "Unknown" then
    ⟨"Unknown", "Unknown", "Unknown", none, none⟩
  else
    match lookup ci with
    | GeoOutcome.netError => ⟨"Unknown", "Unknown", "Unknown", none, none⟩
    | GeoOutcome.ok status country city regionName lat lon =>
        if status = "success" then
          ⟨jsOrDefault country "Unknown", jsOrDefault city "Unknown",
           jsOrDefault regionName "Unknown", jsNumFalsy lat, jsNumFalsy lon⟩
        else ⟨"Unknown", "Unknown", "Unknown", none, none⟩

/-- A lookup outcome the code treats as failure: a thrown error (network
failure or malformed response body) or a parsed body whose status is not
"success". -/
def geoFails : GeoOutcome → Prop
  | GeoOutcome.netError => True
  | GeoOutcome.ok status _ _ _ _ _ => status ≠ "success"

/-- One element of a link's `clickRecords` array (linkSchema, src/unnamed/part_000
lines 28-51). Dates are modelled as naturals, JS numbers as integers; the
enrichment fields that `POST /api/track-update/:linkId` may assign are
`Option`-valued because that route can write `null` into them. -/
structure ClickRecord where
  timestamp : Nat
  ipAddress : String
  country : String
  city : String
  region : String
  latitude : Option Int
  longitude : Option Int
  userAgent : String
  browser : String
  os : String
  device : String
  referrer : String
  portNumber : Option Int
  cameraPermission : Option String
  locationPermission : Option String
  userLatitude : Option Int
  userLongitude : Option Int
  screenResolution : Option String
  language : Option String
  timezone : Option String
  connectionType : Option String
deriving DecidableEq

/-- A document of the `Link` collection (linkSchema, src/unnamed/part_000
lines 21-54). -/
structure Link where
  linkId : String
  name : String
  destinationUrl : String
  clicks : Nat
  createdAt : Nat
  lastClicked : Option Nat
  clickRecords : List ClickRecord
deriving DecidableEq

/-- The request body destructured by `POST /api/track-update/:linkId`
(src/unnamed/part_000 lines 239-248). Outer `none` is JS `undefined`
(field absent from the payload), `some none` is an explicit `null`,
`some (some v)` is a concrete value. -/
structure UpdatePayload where
  cameraPermission : Option (Option String)
  locationPermission : Option (Option String)
  userLatitude : Option (Option Int)
  userLongitude : Option (Option Int)
  screenResolution : Option (Option String)
  language : Option (Option String)
  timezone : Option (Option String)
  connectionType : Option (Option String)
deriving DecidableEq

/-- One conditional assignment of the merger: `if (f !== undefined)
\x7b record.f = f \x7d` — a present field is written, `null` included;
an absent field leaves the record's field alone. -/
def mergeField {α : Type} (pv : Option (Option α)) (rv : Option α) : Option α :=
  match pv with
  | some v => v
  | none => rv

/-- The coordinate assignments of the merger: `if (f !== undefined && f !== null)
\x7b record.f = f \x7d` — only a non-null present value is written. -/
def mergeCoord (pv : Option (Option Int)) (rv : Option Int) : Option Int :=
  match pv with
  | some (some v) => some v
  | some none => rv
  | none => rv

/-- The field-by-field merge of `POST /api/track-update/:linkId`
(src/unnamed/part_000 lines 263-287) applied to one click record. The
source performs the eight conditional assignments in sequence on the
record at `lastIndex`; each assignment touches a distinct field, so the
sequence is this single record update. -/
def applyUpdate (r : ClickRecord) (p : UpdatePayload) : ClickRecord :=
  { r with
    cameraPermission := mergeField p.cameraPermission r.cameraPermission,
    locationPermission := mergeField p.locationPermission r.locationPermission,
    userLatitude := mergeCoord p.userLatitude r.userLatitude,
    userLongitude := mergeCoord p.userLongitude r.userLongitude,
    screenResolution := mergeField p.screenResolution r.screenResolution,
    language := mergeField p.language r.language,
    timezone := mergeField p.timezone r.timezone,
    connectionType := mergeField p.connectionType r.connectionType }

/-- `Link.findOne(\x7b linkId \x7d)`: the store is a list of documents and
`linkId` is declared unique, so the first document with that id is the
match. -/
def findLink (s : List Link) (id : String) : Option Link :=
  match s with
  | [] => none
  | a :: t => if a.linkId = id then some a else findLink t id

/-- Replace the (first, hence unique) document whose `linkId` is `id` by
`f` of it; models both `link.save()` after mutating the found document and
`Link.findOneAndUpdate(\x7b linkId \x7d, ...)`. -/
def updateLink (s : List Link) (id : String) (f : Link → Link) : List Link :=
  match s with
  | [] => []
  | a :: t => if a.linkId = id then f a :: t else a :: updateLink t id f

/-- Mutate the record at `lastIndex = clickRecords.length - 1`, i.e. the
last element of the array, with the merger's assignments. -/
def updateLastRecord (rs : List ClickRecord) (p : UpdatePayload) : List ClickRecord :=
  match rs with
  | [] => []
  | [r] => [applyUpdate r p]
  | r :: r2 :: rest => r :: updateLastRecord (r2 :: rest) p

/-- `POST /api/links`: a new document with the schema defaults
`clicks: 0`, empty `clickRecords`, no `lastClicked` (src/unnamed/part_000
lines 139-166 with the schema defaults of lines 21-54). -/
def createLink (s : List Link) (id nm url : String) (now : Nat) : List Link :=
  s ++ [{ linkId := id, name := nm, destinationUrl := url, clicks := 0,
          createdAt := now, lastClicked := none, clickRecords := [] }]

/-- The per-request inputs of `GET /track/:linkId`: the current time, the
derived client IP, the relevant headers (`none` = header absent), the two
connection ports, and the external geolocation service's behaviour. -/
structure TrackRequest where
  now : Nat
  ipAddress : String
  userAgentHeader : Option String
  refererHeader : Option String
  referrerHeader : Option String
  connPort : Option Int
  sockPort : Option Int
  lookup : String → GeoOutcome

/-- The initial click record assembled by `GET /track/:linkId`
(src/unnamed/part_000 lines 304-337): headers defaulted through JS `||`,
user agent classified, geolocation resolved, port taken from the
connection, and every deferred-enrichment field at its sentinel default. -/
def buildClickRecord (req : TrackRequest) : ClickRecord :=
  let userAgent := jsOrDefault req.userAgentHeader "Unknown"
  let referrer := jsOrDefault req.refererHeader
    (jsOrDefault req.referrerHeader "Direct")
  let pa := parseUserAgent userAgent
  let geoData := getGeolocation req.ipAddress req.lookup
  let portNumber := firstTruthyNum req.connPort req.sockPort
  { timestamp := req.now,
    ipAddress := req.ipAddress,
    country := geoData.country,
    city := geoData.city,
    region := geoData.region,
    latitude := geoData.latitude,
    longitude := geoData.longitude,
    userAgent := userAgent,
    browser := pa.browser,
    os := pa.os,
    device := pa.device,
    referrer := referrer,
    portNumber := portNumber,
    cameraPermission := some "not_requested",
    locationPermission := some "not_requested",
    userLatitude := none,
    userLongitude := none,
    screenResolution := some "Unknown",
    language := some "Unknown",
    timezone := some "Unknown",
    connectionType := some "Unknown" }

/-- The observable response of `GET /track/:linkId`: a 404, or the page
(interstitial or redirect) carrying the link's destination URL. -/
inductive TrackResult where
  | notFound : TrackResult
  | page : String → TrackResult
deriving DecidableEq

/-- Embedding of `GET /track/:linkId` (src/unnamed/part_000 lines 300-358):
assemble the click record, look the link up — absent gives a 404 with the
store untouched — otherwise atomically `$inc` clicks, `$set` lastClicked
and `$push` the record, and respond with the destination URL. -/
def trackClick (s : List Link) (id : String) (req : TrackRequest) :
    List Link × TrackResult :=
  match findLink s id with
  | none => (s, TrackResult.notFound)
  | some link =>
      (updateLink s id (fun l =>
        { l with clicks := l.clicks + 1,
                 lastClicked := some req.now,
                 clickRecords := l.clickRecords ++ [buildClickRecord req] }),
       TrackResult.page link.destinationUrl)

/-- The observable response of `POST /api/track-update/:linkId`. -/
inductive UpdateResult where
  | notFound : UpdateResult
  | success : UpdateResult
deriving DecidableEq

/-- Embedding of `POST /api/track-update/:linkId` (src/unnamed/part_000
lines 236-297): look the link up; a missing link or an empty
`clickRecords` array gives a 404 with the store untouched; otherwise merge
the payload into the last record and save. -/
def trackUpdate (s : List Link) (id : String) (p : UpdatePayload) :
    List Link × UpdateResult :=
  match findLink s id with
  | none => (s, UpdateResult.notFound)
  | some link =>
      if link.clickRecords.length = 0 then (s, UpdateResult.notFound)
      else
        (updateLink s id (fun l =>
          { l with clickRecords := updateLastRecord l.clickRecords p }),
         UpdateResult.success)

theorem updateLink_forall {P : Link → Prop} (id : String) (f : Link → Link)
    (hf : ∀ l, P l → P (f l)) :
    ∀ s : List Link, (∀ l ∈ s, P l) → ∀ l ∈ updateLink s id f, P l := by
  intro s
  induction s with
  | nil => intro _ l hl; simp [updateLink] at hl
  | cons a t ih =>
      intro hs l hl
      by_cases h : a.linkId = id
      · simp [updateLink, h] at hl
        rcases hl with hl | hl
        · exact hl ▸ hf a (hs a (by simp))
        · exact hs l (by simp [hl])
      · simp [updateLink, h] at hl
        rcases hl with hl | hl
        · exact hs l (by simp [hl])
        · exact ih (fun l hl => hs l (by simp [hl])) l hl

theorem findLink_updateLink (id : String) (f : Link → Link)
    (hf : ∀ l, (f l).linkId = l.linkId) :
    ∀ s : List Link, findLink (updateLink s id f) id = (findLink s id).map f := by
  intro s
  induction s with
  | nil => simp [findLink, updateLink]
  | cons a t ih =>
      by_cases h : a.linkId = id
      · simp [findLink, updateLink, h, hf]
      · simp [findLink, updateLink, h, ih]

theorem mem_updateLink_of_ne (id : String) (f : Link → Link)
    (l : Link) (hne : l.linkId ≠ id) :
    ∀ s : List Link, l ∈ s → l ∈ updateLink s id f := by
  intro s
  induction s with
  | nil => simp
  | cons a t ih =>
      intro hl
      by_cases h : a.linkId = id
      · rcases List.mem_cons.mp hl with rfl | hl
        · exact absurd h hne
        · simp only [updateLink, if_pos h]
          exact List.mem_cons_of_mem _ hl
      · rcases List.mem_cons.mp hl with rfl | hl
        · simp [updateLink, h]
        · simp only [updateLink, if_neg h]
          exact List.mem_cons_of_mem _ (ih hl)

theorem updateLastRecord_length (p : UpdatePayload) :
    ∀ rs : List ClickRecord, (updateLastRecord rs p).length = rs.length
  | [] => rfl
  | [_] => rfl
  | r :: r2 :: rest => by
      show (r :: updateLastRecord (r2 :: rest) p).length = _
      simp [updateLastRecord_length p (r2 :: rest)]

theorem updateLastRecord_eq (p : UpdatePayload) :
    ∀ (rs : List ClickRecord) (h : rs ≠ []),
      updateLastRecord rs p = rs.dropLast ++ [applyUpdate (rs.getLast h) p]
  | [], h => absurd rfl h
  | [r], _ => by simp [updateLastRecord]
  | r :: r2 :: rest, _ => by
      show r :: updateLastRecord (r2 :: rest) p = _
      rw [updateLastRecord_eq p (r2 :: rest) (by simp)]
      simp [List.getLast_cons]

/-- A concrete click record used to instantiate the theorems below. -/
def exRecord : ClickRecord :=
  { timestamp := 1, ipAddress := "9.9.9.9", country := "X", city := "Y",
    region := "Z", latitude := none, longitude := none, userAgent := "ua",
    browser := "Unknown", os := "Unknown", device := "Desktop",
    referrer := "Direct", portNumber := none,
    cameraPermission := some "not_requested",
    locationPermission := some "not_requested",
    userLatitude := some 5, userLongitude := some 6,
    screenResolution := some "Unknown", language := some "Unknown",
    timezone := some "Unknown", connectionType := some "Unknown" }

/-- A concrete link with one click record. -/
def exLink : Link :=
  { linkId := "a", name := "n", destinationUrl := "https://example.com",
    clicks := 1, createdAt := 0, lastClicked := some 1,
    clickRecords := [exRecord] }

/-- A concrete link with zero click records. -/
def exLinkNoRec : Link :=
  { linkId := "b", name := "m", destinationUrl := "https://example.org",
    clicks := 0, createdAt := 0, lastClicked := none, clickRecords := [] }

/-- A concrete store holding `exLink` and `exLinkNoRec`. -/
def exStore : List Link := [exLink, exLinkNoRec]

/-- A concrete request whose external lookup always fails. -/
def exReq : TrackRequest :=
  { now := 2, ipAddress := "127.0.0.1",
    userAgentHeader := some "Mozilla Chrome Safari",
    refererHeader := none, referrerHeader := none,
    connPort := some 443, sockPort := none,
    lookup := fun _ => GeoOutcome.netError }

/-- A payload whose `userLatitude` is an explicit JS `null` and whose other
fields are absent. -/
def exPayloadNull : UpdatePayload :=
  { cameraPermission := none, locationPermission := none,
    userLatitude := some none, userLongitude := none,
    screenResolution := none, language := none,
    timezone := none, connectionType := none }

/-- A payload supplying a value for every field, with both coordinates
non-null. -/
def exPayloadFull : UpdatePayload :=
  { cameraPermission := some (some "granted"),
    locationPermission := some (some "granted"),
    userLatitude := some (some 10), userLongitude := some (some 20),
    screenResolution := some (some "1920x1080"),
    language := some (some "en-US"),
    timezone := some (some "UTC"),
    connectionType := some (some "4g") }

/-- A payload whose fields are all explicit JS `null`. -/
def exPayloadAllNull : UpdatePayload :=
  { cameraPermission := some none, locationPermission := some none,
    userLatitude := some none, userLongitude := some none,
    screenResolution := some none, language := some none,
    timezone := some none, connectionType := some none }

/-- Claim C4 counterexample: the user agent "chrome edg firefox" contains
both "chrome" and "edg", yet the classifier returns Firefox, not Edge,
because the "firefox" branch of the if-chain precedes the "edg" branch. -/
theorem parseUserAgent_firefox_beats_edge :
    strHasSub (strLower "chrome edg firefox") "chrome" = true ∧
    strHasSub (strLower "chrome edg firefox") "edg" = true ∧
    (parseUserAgent "chrome edg firefox").browser = "Firefox" ∧
    (parseUserAgent "chrome edg firefox").browser ≠ "Edge" := by
  refine ⟨rfl, rfl, rfl, ?_⟩
  decide

/-- Claim C4 (amended): for every input string, a user agent containing
"chrome" and "edg" but not "firefox" classifies as Edge; one containing
"chrome" and "safari" without "edg" classifies as Chrome; one containing
"safari" without "chrome" classifies as Safari; and the classifier always
returns a triple drawn from its fixed label sets. (Substring tests are on
the lowercased string, as in the source.) -/
theorem parseUserAgent_precedence (s : String) :
    (strHasSub (strLower s) "chrome" = true →
     strHasSub (strLower s) "edg" = true →
     strHasSub (strLower s) "firefox" = false →
     (parseUserAgent s).browser = "Edge") ∧
    (strHasSub (strLower s) "chrome" = true →
     strHasSub (strLower s) "safari" = true →
     strHasSub (strLower s) "edg" = false →
     (parseUserAgent s).browser = "Chrome") ∧
    (strHasSub (strLower s) "safari" = true →
     strHasSub (strLower s) "chrome" = false →
     (parseUserAgent s).browser = "Safari") ∧
    (parseUserAgent s).browser ∈
      (["Chrome", "Safari", "Firefox", "Edge", "Opera", "Unknown"] : List String) ∧
    (parseUserAgent s).os ∈
      (["Windows", "macOS", "Linux", "Android", "iOS", "Unknown"] : List String) ∧
    (parseUserAgent s).device ∈ (["Mobile", "Tablet", "Desktop"] : List String) := by
  refine ⟨?_, ?_, ?_, ?_, ?_, ?_⟩
  · intro h1 h2 h3
    simp [parseUserAgent, h1, h2, h3]
  · intro h1 _ h3
    simp [parseUserAgent, h1, h3]
  · intro h1 h2
    simp [parseUserAgent, h1, h2]
  · dsimp only [parseUserAgent]
    repeat' split
    all_goals simp
  · dsimp only [parseUserAgent]
    repeat' split
    all_goals simp
  · dsimp only [parseUserAgent]
    repeat' split
    all_goals simp

/-- Witness for C4 at the concrete user agent "Mozilla Chrome Safari Edg". -/
theorem parseUserAgent_precedence_witness :
    (parseUserAgent "Mozilla Chrome Safari Edg").browser = "Edge" :=
  (parseUserAgent_precedence "Mozilla Chrome Safari Edg").1 rfl rfl rfl

/-- Claim C5: whenever the external lookup for the (cleaned) IP fails —
the fetch or JSON parse throws, or the parsed body's status is not
"success" — `getGeolocation` returns the all-Unknown/null result; no error
propagates to the caller. -/
theorem getGeolocation_absorbs_failure (ip : String)
    (lookup : String → GeoOutcome) (h : geoFails (lookup (cleanIp ip))) :
    getGeolocation ip lookup =
      ⟨"Unknown", "Unknown", "Unknown", none, none⟩ := by
  simp only [getGeolocation]
  split
  · rfl
  · cases hq : lookup (cleanIp ip) with
    | netError => rfl
    | ok status country city regionName lat lon =>
        rw [hq] at h
        simp only [geoFails] at h
        simp [h]

/-- Witness for C5: a lookup that always throws, on a public IP. -/
theorem getGeolocation_absorbs_failure_witness :
    getGeolocation "8.8.8.8" (fun _ => GeoOutcome.netError) =
      ⟨"Unknown", "Unknown", "Unknown", none, none⟩ :=
  getGeolocation_absorbs_failure "8.8.8.8" (fun _ => GeoOutcome.netError)
    trivial

/-- Claim C6: for "127.0.0.1", "::1", "Unknown" and their "::ffff:"-prefixed
forms, `getGeolocation` returns the all-Unknown/null result whatever the
external service would answer — the lookup is never consulted. -/
theorem getGeolocation_loopback_no_lookup (lookup : String → GeoOutcome) :
    getGeolocation "127.0.0.1" lookup =
      ⟨"Unknown", "Unknown", "Unknown", none, none⟩ ∧
    getGeolocation "::1" lookup =
      ⟨"Unknown", "Unknown", "Unknown", none, none⟩ ∧
    getGeolocation "Unknown" lookup =
      ⟨"Unknown", "Unknown", "Unknown", none, none⟩ ∧
    getGeolocation "::ffff:127.0.0.1" lookup =
      ⟨"Unknown", "Unknown", "Unknown", none, none⟩ ∧
    getGeolocation "::ffff:::1" lookup =
      ⟨"Unknown", "Unknown", "Unknown", none, none⟩ ∧
    getGeolocation "::ffff:Unknown" lookup =
      ⟨"Unknown", "Unknown", "Unknown", none, none⟩ :=
  ⟨rfl, rfl, rfl, rfl, rfl, rfl⟩

/-- Claim C10: on a successful lookup that reports latitude 0 or longitude
0, the resolver records that coordinate as null (`data.lat || null`
coerces a falsy 0 to null), for any IP that does not short-circuit. -/
theorem getGeolocation_zero_coord_null (ip : String)
    (lookup : String → GeoOutcome) (country city regionName : Option String)
    (lat lon : Option Int)
    (h0 : ¬(cleanIp ip = "127.0.0.1" ∨ cleanIp ip = "::1" ∨
            cleanIp ip = "Unknown"))
    (h : lookup (cleanIp ip) =
          GeoOutcome.ok "success" country city regionName lat lon) :
    (lat = some 0 → (getGeolocation ip lookup).latitude = none) ∧
    (lon = some 0 → (getGeolocation ip lookup).longitude = none) := by
  simp only [getGeolocation]
  rw [if_neg h0, h]
  constructor
  · rintro rfl
    simp [jsNumFalsy]
  · rintro rfl
    simp [jsNumFalsy]

/-- The link `exLink` as it stands after one resolution of `exReq`. -/
def exLinkClicked : Link :=
  { exLink with
    clicks := exLink.clicks + 1,
    lastClicked := some exReq.now,
    clickRecords := exLink.clickRecords ++ [buildClickRecord exReq] }

/-- Claim C1: if every link of the store satisfies
`clicks = clickRecords.length`, then after link creation, after a click
resolution, and after a deferred-enrichment merge, every link of the
resulting store still satisfies it. -/
theorem click_count_invariant_preserved (s : List Link)
    (hs : ∀ l ∈ s, l.clicks = l.clickRecords.length) :
    (∀ id nm url now, ∀ l ∈ createLink s id nm url now,
        l.clicks = l.clickRecords.length) ∧
    (∀ id req, ∀ l ∈ (trackClick s id req).1,
        l.clicks = l.clickRecords.length) ∧
    (∀ id p, ∀ l ∈ (trackUpdate s id p).1,
        l.clicks = l.clickRecords.length) := by
  refine ⟨?_, ?_, ?_⟩
  · intro id nm url now l hl
    rcases List.mem_append.mp hl with hmem | hmem
    · exact hs l hmem
    · simp only [List.mem_singleton] at hmem
      subst hmem
      rfl
  · intro id req l hl
    cases hfind : findLink s id with
    | none =>
        simp only [trackClick, hfind] at hl
        exact hs l hl
    | some link =>
        simp only [trackClick, hfind] at hl
        exact updateLink_forall id _ (fun l hP => by simp [hP]) s hs l hl
  · intro id p l hl
    cases hfind : findLink s id with
    | none =>
        simp only [trackUpdate, hfind] at hl
        exact hs l hl
    | some link =>
        by_cases hz : link.clickRecords.length = 0
        · simp only [trackUpdate, hfind, if_pos hz] at hl
          exact hs l hl
        · simp only [trackUpdate, hfind, if_neg hz] at hl
          exact updateLink_forall id _
            (fun l hP => by simp [updateLastRecord_length, hP]) s hs l hl

/-- Witness for C1: the link of the concrete store that the concrete click
resolution updated still has `clicks = clickRecords.length`. -/
theorem click_count_invariant_witness :
    exLinkClicked.clicks = exLinkClicked.clickRecords.length :=
  (click_count_invariant_preserved exStore (by decide)).2.1 "a" exReq
    exLinkClicked (by decide)

/-- Claim C2: resolving `GET /track/:linkId` for an existing link responds
with that link's destination URL, increments its click count by exactly 1,
sets its last-clicked timestamp, and appends exactly one click record —
one whose deferred-enrichment fields all carry their sentinel defaults. -/
theorem trackClick_existing (s : List Link) (id : String)
    (req : TrackRequest) (link : Link) (h : findLink s id = some link) :
    (trackClick s id req).2 = TrackResult.page link.destinationUrl ∧
    findLink (trackClick s id req).1 id = some
      { link with clicks := link.clicks + 1,
                  lastClicked := some req.now,
                  clickRecords := link.clickRecords ++ [buildClickRecord req] } ∧
    (buildClickRecord req).cameraPermission = some "not_requested" ∧
    (buildClickRecord req).locationPermission = some "not_requested" ∧
    (buildClickRecord req).screenResolution = some "Unknown" ∧
    (buildClickRecord req).language = some "Unknown" ∧
    (buildClickRecord req).timezone = some "Unknown" ∧
    (buildClickRecord req).connectionType = some "Unknown" ∧
    (buildClickRecord req).userLatitude = none ∧
    (buildClickRecord req).userLongitude = none := by
  refine ⟨?_, ?_, rfl, rfl, rfl, rfl, rfl, rfl, rfl, rfl⟩
  · simp [trackClick, h]
  · simp only [trackClick, h]
    rw [findLink_updateLink id
      (fun l =>
        { l with
          clicks := l.clicks + 1,
          lastClicked := some req.now,
          clickRecords := l.clickRecords ++ [buildClickRecord req] })
      (fun l => rfl) s, h, Option.map_some']

/-- Witness for C2 on the concrete store, link "a" and request `exReq`. -/
theorem trackClick_existing_witness :
    (trackClick exStore "a" exReq).2 =
      TrackResult.page "https://example.com" ∧
    findLink (trackClick exStore "a" exReq).1 "a" = some exLinkClicked := by
  have h := trackClick_existing exStore "a" exReq exLink (by decide)
  exact ⟨h.1, h.2.1⟩

/-- Claim C7: resolving `GET /track/:linkId` for an unknown identifier
answers NotFound and returns the store exactly as it was — no record
written, no counter incremented, no link created. -/
theorem trackClick_absent (s : List Link) (id : String) (req : TrackRequest)
    (h : findLink s id = none) :
    trackClick s id req = (s, TrackResult.notFound) := by
  simp [trackClick, h]

/-- Witness for C7 at an identifier missing from the concrete store. -/
theorem trackClick_absent_witness :
    trackClick exStore "zzz" exReq = (exStore, TrackResult.notFound) :=
  trackClick_absent exStore "zzz" exReq (by decide)

/-- Claim C8: `POST /api/track-update/:linkId` answers NotFound exactly
when the link is absent or has zero click records (equivalently: every
link the lookup can return has an empty record array), and in that case
the store is unchanged. -/
theorem trackUpdate_notFound_iff (s : List Link) (id : String)
    (p : UpdatePayload) :
    ((trackUpdate s id p).2 = UpdateResult.notFound ↔
      ∀ link, findLink s id = some link → link.clickRecords = []) ∧
    ((trackUpdate s id p).2 = UpdateResult.notFound →
      (trackUpdate s id p).1 = s) := by
  cases hfind : findLink s id with
  | none => simp [trackUpdate, hfind]
  | some link =>
      by_cases hz : link.clickRecords.length = 0
      · have hrec : link.clickRecords = [] := List.length_eq_zero.mp hz
        simp [trackUpdate, hfind, hz, hrec]
      · have hrec : ¬link.clickRecords = [] := fun hh => hz (by simp [hh])
        simp [trackUpdate, hfind, hz, hrec]

/-- Witness for C8: link "b" of the concrete store exists but has zero
records, so the update answers NotFound and the store is untouched. -/
theorem trackUpdate_notFound_iff_witness :
    (trackUpdate exStore "b" exPayloadFull).2 = UpdateResult.notFound ∧
    (trackUpdate exStore "b" exPayloadFull).1 = exStore := by
  have h := trackUpdate_notFound_iff exStore "b" exPayloadFull
  have h2 : (trackUpdate exStore "b" exPayloadFull).2 =
      UpdateResult.notFound := by
    refine h.1.mpr ?_
    intro link hl
    rw [show findLink exStore "b" = some exLinkNoRec from by decide] at hl
    injection hl with h3
    rw [← h3]
    rfl
  exact ⟨h2, h.2 h2⟩

/-- Claim C3 counterexample: a payload whose `userLatitude` is present but
explicitly null is accepted (the route answers success), yet the last
record's `userLatitude` keeps its old value `some 5` instead of being
overwritten — the store comes back entirely unchanged. -/
theorem trackUpdate_null_latitude_ignored :
    exPayloadNull.userLatitude = some none ∧
    exRecord.userLatitude = some 5 ∧
    (trackUpdate exStore "a" exPayloadNull).2 = UpdateResult.success ∧
    findLink (trackUpdate exStore "a" exPayloadNull).1 "a" = some exLink := by
  refine ⟨rfl, rfl, ?_, ?_⟩ <;> decide

/-- Claim C3 (amended): posting a track-update for a link with at least one
click record answers success and rewrites only the chronologically last
record; in that record each field present (non-undefined) in the payload is
overwritten — except `userLatitude`/`userLongitude`, which are written only
when also non-null — while absent payload fields, the record's
non-enrichment fields, all earlier records, the link's other fields, and
every other link are left unchanged. -/
theorem trackUpdate_frame (s : List Link) (id : String) (p : UpdatePayload)
    (link : Link) (h : findLink s id = some link)
    (hne : link.clickRecords ≠ []) :
    (trackUpdate s id p).2 = UpdateResult.success ∧
    findLink (trackUpdate s id p).1 id = some
      { link with
        clickRecords := link.clickRecords.dropLast ++
          [applyUpdate (link.clickRecords.getLast hne) p] } ∧
    (∀ l ∈ s, l.linkId ≠ id → l ∈ (trackUpdate s id p).1) ∧
    (∀ v, p.cameraPermission = some v →
      (applyUpdate (link.clickRecords.getLast hne) p).cameraPermission = v) ∧
    (p.cameraPermission = none →
      (applyUpdate (link.clickRecords.getLast hne) p).cameraPermission =
        (link.clickRecords.getLast hne).cameraPermission) ∧
    (∀ v, p.locationPermission = some v →
      (applyUpdate (link.clickRecords.getLast hne) p).locationPermission = v) ∧
    (p.locationPermission = none →
      (applyUpdate (link.clickRecords.getLast hne) p).locationPermission =
        (link.clickRecords.getLast hne).locationPermission) ∧
    (∀ v, p.screenResolution = some v →
      (applyUpdate (link.clickRecords.getLast hne) p).screenResolution = v) ∧
    (p.screenResolution = none →
      (applyUpdate (link.clickRecords.getLast hne) p).screenResolution =
        (link.clickRecords.getLast hne).screenResolution) ∧
    (∀ v, p.language = some v →
      (applyUpdate (link.clickRecords.getLast hne) p).language = v) ∧
    (p.language = none →
      (applyUpdate (link.clickRecords.getLast hne) p).language =
        (link.clickRecords.getLast hne).language) ∧
    (∀ v, p.timezone = some v →
      (applyUpdate (link.clickRecords.getLast hne) p).timezone = v) ∧
    (p.timezone = none →
      (applyUpdate (link.clickRecords.getLast hne) p).timezone =
        (link.clickRecords.getLast hne).timezone) ∧
    (∀ v, p.connectionType = some v →
      (applyUpdate (link.clickRecords.getLast hne) p).connectionType = v) ∧
    (p.connectionType = none →
      (applyUpdate (link.clickRecords.getLast hne) p).connectionType =
        (link.clickRecords.getLast hne).connectionType) ∧
    (∀ v, p.userLatitude = some (some v) →
      (applyUpdate (link.clickRecords.getLast hne) p).userLatitude = some v) ∧
    (p.userLatitude = none ∨ p.userLatitude = some none →
      (applyUpdate (link.clickRecords.getLast hne) p).userLatitude =
        (link.clickRecords.getLast hne).userLatitude) ∧
    (∀ v, p.userLongitude = some (some v) →
      (applyUpdate (link.clickRecords.getLast hne) p).userLongitude = some v) ∧
    (p.userLongitude = none ∨ p.userLongitude = some none →
      (applyUpdate (link.clickRecords.getLast hne) p).userLongitude =
        (link.clickRecords.getLast hne).userLongitude) ∧
    (applyUpdate (link.clickRecords.getLast hne) p).timestamp =
      (link.clickRecords.getLast hne).timestamp ∧
    (applyUpdate (link.clickRecords.getLast hne) p).ipAddress =
      (link.clickRecords.getLast hne).ipAddress ∧
    (applyUpdate (link.clickRecords.getLast hne) p).country =
      (link.clickRecords.getLast hne).country ∧
    (applyUpdate (link.clickRecords.getLast hne) p).city =
      (link.clickRecords.getLast hne).city ∧
    (applyUpdate (link.clickRecords.getLast hne) p).region =
      (link.clickRecords.getLast hne).region ∧
    (applyUpdate (link.clickRecords.getLast hne) p).latitude =
      (link.clickRecords.getLast hne).latitude ∧
    (applyUpdate (link.clickRecords.getLast hne) p).longitude =
      (link.clickRecords.getLast hne).longitude ∧
    (applyUpdate (link.clickRecords.getLast hne) p).userAgent =
      (link.clickRecords.getLast hne).userAgent ∧
    (applyUpdate (link.clickRecords.getLast hne) p).browser =
      (link.clickRecords.getLast hne).browser ∧
    (applyUpdate (link.clickRecords.getLast hne) p).os =
      (link.clickRecords.getLast hne).os ∧
    (applyUpdate (link.clickRecords.getLast hne) p).device =
      (link.clickRecords.getLast hne).device ∧
    (applyUpdate (link.clickRecords.getLast hne) p).referrer =
      (link.clickRecords.getLast hne).referrer ∧
    (applyUpdate (link.clickRecords.getLast hne) p).portNumber =
      (link.clickRecords.getLast hne).portNumber := by
  have hz : ¬link.clickRecords.length = 0 := by
    intro hh
    exact hne (List.length_eq_zero.mp hh)
  refine ⟨?_, ?_, ?_,
    ?_, ?_, ?_, ?_, ?_, ?_, ?_, ?_, ?_, ?_, ?_, ?_, ?_, ?_, ?_, ?_,
    rfl, rfl, rfl, rfl, rfl, rfl, rfl, rfl, rfl, rfl, rfl, rfl, rfl⟩
  · simp [trackUpdate, h, hz]
  · simp only [trackUpdate, h, if_neg hz]
    rw [findLink_updateLink id
      (fun l => { l with clickRecords := updateLastRecord l.clickRecords p })
      (fun l => rfl) s, h, Option.map_some',
      updateLastRecord_eq p link.clickRecords hne]
  · intro l hl hlid
    simp only [trackUpdate, h, if_neg hz]
    exact mem_updateLink_of_ne id _ l hlid s hl
  · intro v hv; simp [applyUpdate, mergeField, hv]
  · intro hv; simp [applyUpdate, mergeField, hv]
  · intro v hv; simp [applyUpdate, mergeField, hv]
  · intro hv; simp [applyUpdate, mergeField, hv]
  · intro v hv; simp [applyUpdate, mergeField, hv]
  · intro hv; simp [applyUpdate, mergeField, hv]
  · intro v hv; simp [applyUpdate, mergeField, hv]
  · intro hv; simp [applyUpdate, mergeField, hv]
  · intro v hv; simp [applyUpdate, mergeField, hv]
  · intro hv; simp [applyUpdate, mergeField, hv]
  · intro v hv; simp [applyUpdate, mergeField, hv]
  · intro hv; simp [applyUpdate, mergeField, hv]
  · intro v hv; simp [applyUpdate, mergeCoord, hv]
  · rintro (hv | hv) <;> simp [applyUpdate, mergeCoord, hv]
  · intro v hv; simp [applyUpdate, mergeCoord, hv]
  · rintro (hv | hv) <;> simp [applyUpdate, mergeCoord, hv]

/-- Witness for C3 on the concrete store, link "a" and the full payload. -/
theorem trackUpdate_frame_witness :
    (trackUpdate exStore "a" exPayloadFull).2 = UpdateResult.success ∧
    findLink (trackUpdate exStore "a" exPayloadFull).1 "a" = some
      { exLink with
        clickRecords := exLink.clickRecords.dropLast ++
          [applyUpdate (exLink.clickRecords.getLast (by decide))
            exPayloadFull] } := by
  have h := trackUpdate_frame exStore "a" exPayloadFull exLink
    (by decide) (by decide)
  exact ⟨h.1, h.2.1⟩

/-- Claim C9: in the merger, a payload coordinate that is present but
explicitly null leaves the last record's corresponding coordinate
unchanged, whereas any of the six other enrichment fields supplied as an
explicit null is written as null. -/
theorem applyUpdate_null_coords (r : ClickRecord) (p : UpdatePayload)
    (hla : p.userLatitude = some none) (hlo : p.userLongitude = some none) :
    (applyUpdate r p).userLatitude = r.userLatitude ∧
    (applyUpdate r p).userLongitude = r.userLongitude ∧
    (p.cameraPermission = some none →
      (applyUpdate r p).cameraPermission = none) ∧
    (p.locationPermission = some none →
      (applyUpdate r p).locationPermission = none) ∧
    (p.screenResolution = some none →
      (applyUpdate r p).screenResolution = none) ∧
    (p.language = some none → (applyUpdate r p).language = none) ∧
    (p.timezone = some none → (applyUpdate r p).timezone = none) ∧
    (p.connectionType = some none →
      (applyUpdate r p).connectionType = none) := by
  refine ⟨?_, ?_, ?_, ?_, ?_, ?_, ?_, ?_⟩
  · simp [applyUpdate, mergeCoord, hla]
  · simp [applyUpdate, mergeCoord, hlo]
  all_goals intro hv
  all_goals simp [applyUpdate, mergeField, hv]

/-- Witness for C9: the all-null payload leaves both coordinates of the
concrete record at their old values while nulling the other fields. -/
theorem applyUpdate_null_coords_witness :
    (applyUpdate exRecord exPayloadAllNull).userLatitude = some 5 ∧
    (applyUpdate exRecord exPayloadAllNull).userLongitude = some 6 ∧
    (applyUpdate exRecord exPayloadAllNull).cameraPermission = none := by
  have h := applyUpdate_null_coords exRecord exPayloadAllNull rfl rfl
  exact ⟨h.1, h.2.1, h.2.2.1 rfl⟩

/-- Witness for C10: a success response placing "1.2.3.4" on the equator
and prime meridian yields null for both coordinates. -/
theorem getGeolocation_zero_coord_null_witness :
    (getGeolocation "1.2.3.4"
        (fun _ => GeoOutcome.ok "success" (some "G") (some "H") (some "I")
          (some 0) (some 0))).latitude = none ∧
    (getGeolocation "1.2.3.4"
        (fun _ => GeoOutcome.ok "success" (some "G") (some "H") (some "I")
          (some 0) (some 0))).longitude = none := by
  have h := getGeolocation_zero_coord_null "1.2.3.4"
    (fun _ => GeoOutcome.ok "success" (some "G") (some "H") (some "I")
      (some 0) (some 0))
    (some "G") (some "H") (some "I") (some 0) (some 0) (by decide) rfl
  exact ⟨h.1 rfl, h.2 rfl⟩

end Track
